import Mathlib

/-!
Verification development for the support-intake bot (src/tg_bot.py).

The Python source is shallowly embedded: pure helpers become Lean
functions; the mutable ticket dictionary becomes an explicit `Store`
threaded through the operations; wall-clock time (`datetime.now`)
becomes an explicit `now : Nat` parameter measured in seconds; the
Python float confidence constants (0.92, 0.85, 0.78, 0.65, 0.7, 0.1,
0.95) become exact integer hundredths (92, 85, 78, 65, 70, 10, 95) —
every arithmetic step and comparison the program performs on them is
exact in binary floating point and lands on a multiple of 1/100 up to
an error below 1e-15, far smaller than any compared gap, so nothing
observable is changed by this choice.
-/

set_option maxRecDepth 8000

namespace TgBot

/-! ### String primitives

Python lowercases the incoming message with `str.lower()`.  The texts
this program manipulates are ASCII plus Russian Cyrillic (plus emoji,
which `lower()` leaves unchanged), so we implement exactly that part of
the Unicode lowering: ASCII A–Z, Cyrillic А–Я (U+0410..U+042F) and Ё
(U+0401). -/

def lowerChar (c : Char) : Char :=
  if 65 ≤ c.toNat ∧ c.toNat ≤ 90 then Char.ofNat (c.toNat + 32)
  else if 0x410 ≤ c.toNat ∧ c.toNat ≤ 0x42F then Char.ofNat (c.toNat + 0x20)
  else if c.toNat = 0x401 then Char.ofNat 0x451
  else c

def lower (s : String) : List Char := s.toList.map lowerChar

/-- Python's substring containment test `pat in hay` (for strings). -/
def containsSub (hay pat : List Char) : Bool :=
  match hay with
  | [] => pat.isEmpty
  | _ :: t => pat.isPrefixOf hay || containsSub t pat

/-- Worker for `pyReplace`, structurally recursive on a fuel argument
so the kernel can evaluate it; each step consumes at least one
character of the remaining string, so `s.length` fuel is always
enough.  For non-empty `pat`,
`List.drop (pat.length - 1) t = List.drop pat.length (c :: t)`
is the rest of the string after a replaced occurrence. -/
def pyReplaceGo (pat rep : List Char) : Nat → List Char → List Char
  | _, [] => []
  | 0, s => s
  | fuel + 1, c :: t =>
    if pat.isPrefixOf (c :: t) then
      rep ++ pyReplaceGo pat rep fuel (List.drop (pat.length - 1) t)
    else
      c :: pyReplaceGo pat rep fuel t

/-- Python's `str.replace(pat, rep)`: replace every non-overlapping
occurrence of `pat`, scanning left to right.  (All call sites in the
source use a non-empty pattern; for an empty pattern we return the
string unchanged.) -/
def pyReplace (s pat rep : List Char) : List Char :=
  if pat.isEmpty then s else pyReplaceGo pat rep s.length s

/-! ### MockLLMService.analyze_problem (src/tg_bot.py lines 250-331) -/

inductive Severity where
  | low
  | medium
  | high
  | critical
deriving DecidableEq, Repr

/-- Result record of `MockLLMService.analyze_problem`.  The wall-clock
`analysis_time` field is presentation-only and is omitted. -/
structure Analysis where
  category : String
  subcategory : String
  critical_level : Severity
  requires_human : Bool
  confidence : Nat
  summary : String
deriving DecidableEq, Repr

def critical_words : List String :=
  ["полностью недоступен", "остановка работы", "не могу работать",
   "критично", "срочно", "авария", "не работает вся система",
   "блокировка работы", "финансовая ошибка", "угроза безопасности",
   "платеж не проходит", "данные утеряны", "система упала",
   "доступ полностью закрыт", "все упало", "катастрофа",
   "чрезвычайная ситуация", "аварийная остановка",
   "не могу зайти", "не могу авторизоваться", "не могу войти",
   "система не работает", "сервис недоступен"]

def high_priority_words : List String :=
  ["доступ", "войти", "логин", "пароль", "авторизация",
   "платеж", "транзакция", "деньги", "финанс", "отчетность",
   "конфиденциальн", "секретн", "персональные данные",
   "сбой", "недоступен", "не открывается", "ошибка соединения",
   "критическая ошибка", "не могу войти", "заблокирован",
   "не заходит", "проблемы с доступом"]

def medium_priority_words : List String :=
  ["ошибка", "не работает", "не открывается", "сбой",
   "почта", "email", "письмо", "отправка", "получение",
   "отчет", "формирование", "выгрузка", "аналитика",
   "проблема", "не получается", "не функционирует",
   "неправильно работает", "техническая проблема"]

def low_priority_words : List String :=
  ["медленно", "тормозит", "зависает", "скорость",
   "консультация", "вопрос", "как сделать", "настройка",
   "обучение", "инструкция", "справка", "подсказка",
   "как пользоваться", "как настроить"]

/-- Python `any(word in msg for word in words)`. -/
def hitsAny (words : List String) (m : List Char) : Bool :=
  words.any (fun w => containsSub m w.toList)

def accessCategoryWords : List String :=
  ["доступ", "войти", "логин", "пароль", "авторизация", "зайти", "войти"]

def reportCategoryWords : List String :=
  ["отчет", "формирование", "аналитика", "данные", "выгрузка", "статистика"]

def performanceCategoryWords : List String :=
  ["медленно", "тормозит", "зависает", "скорость", "производительность", "долго"]

def emailCategoryWords : List String :=
  ["почта", "email", "письмо", "отправка", "получение", "outlook", "corporate"]

def financeCategoryWords : List String :=
  ["платеж", "транзакция", "деньги", "финанс", "перевод", "оплата"]

def securityCategoryWords : List String :=
  ["пароль", "сброс", "учетная запись", "восстановление", "забыл пароль"]

def analyze_problem (user_message : String) : Analysis :=
  let m := lower user_message
  let lc :=
    if hitsAny critical_words m then (Severity.critical, 92)
    else if hitsAny high_priority_words m then (Severity.high, 85)
    else if hitsAny medium_priority_words m then (Severity.medium, 78)
    else (Severity.low, 65)
  let cs :=
    if hitsAny accessCategoryWords m then ("Проблемы с доступом", "Аутентификация")
    else if hitsAny reportCategoryWords m then ("Работа с отчетами", "Формирование отчетов")
    else if hitsAny performanceCategoryWords m then ("Производительность", "Медленная работа")
    else if hitsAny emailCategoryWords m then ("Корпоративная почта", "Работа с почтой")
    else if hitsAny financeCategoryWords m then ("Финансовые операции", "Проведение платежей")
    else if hitsAny securityCategoryWords m then ("Безопасность", "Управление доступом")
    else ("Общая техническая проблема", "Неопределено")
  { category := cs.1
    subcategory := cs.2
    critical_level := lc.1
    requires_human := lc.1 = Severity.high ∨ lc.1 = Severity.critical ∨ lc.2 < 70
    confidence := lc.2
    summary := "Пользователь сообщает: " ++ String.mk (user_message.toList.take 80) ++ "..." }

/-! ### MockDatabase (src/tg_bot.py lines 51-245) -/

structure FAQ where
  id : Nat
  question : String
  short_question : String
  answer : String
  category : String
  priority : String
  keywords : List String
deriving DecidableEq, Repr

def FREQUENT_QUESTIONS : List FAQ :=
  [ { id := 1
      question := "🔐 Не работает доступ к системе"
      short_question := "🔐 Доступ к системе"
      answer := "🔐 <b>Проблемы с доступом к системе</b>\n\nДля восстановления доступа:\n1. Проверьте корректность логина/пароля\n2. Убедитесь, что аккаунт активен (не заблокирован)\n3. Используйте кнопку \"Восстановить доступ\" в корпоративном портале\n4. Если не помогло - обратитесь к администратору домена\n\n⏱ Время решения: 15-30 минут\n📞 Если проблема не решена за 30 мин - создайте обращение"
      category := "access"
      priority := "high"
      keywords := ["доступ", "войти", "логин", "пароль", "авторизация"] },
    { id := 2
      question := "💻 Ошибка при входе в сервис"
      short_question := "💻 Ошибка при входе"
      answer := "💻 <b>Ошибки при входе в сервис</b>\n\nРешение:\n1. Очистите кэш браузера (Ctrl+Shift+Del → выберите \"Кэш\")\n2. Попробуйте другой браузер (рекомендуется Chrome)\n3. Перезагрузите компьютер\n4. Проверьте подключение к корпоративной сети\n5. Убедитесь, что сервис не на техническом обслуживании\n\n📞 Если проблема не решена - создайте обращение"
      category := "technical"
      priority := "medium"
      keywords := ["ошибка", "вход", "сервис", "браузер", "кэш"] },
    { id := 3
      question := "📊 Не формируется отчет"
      short_question := "📊 Формирование отчета"
      answer := "📊 <b>Проблемы с формированием отчетов</b>\n\nДействия:\n1. Проверьте заполнение всех обязательных полей (помечены *)\n2. Убедитесь в наличии прав на данный раздел\n3. Проверьте подключение к БД отчетности\n4. Подождите 15 минут (в часы пик возможны задержки)\n5. Попробуйте сформировать отчет в другое время\n\n🔄 Если отчет не формируется более 30 мин - обратитесь в поддержку"
      category := "reports"
      priority := "medium"
      keywords := ["отчет", "формирование", "аналитика", "данные", "выгрузка"] },
    { id := 4
      question := "⚡ Медленная работа системы"
      short_question := "⚡ Медленная работа"
      answer := "⚡ <b>Медленная работа приложений</b>\n\nУскорение работы:\n1. Закройте неиспользуемые вкладки и программы\n2. Проверьте скорость интернета (speedtest.net)\n3. Обновите браузер до последней версии\n4. Очистите временные файлы системы\n5. Проверьте обновления операционной системы\n\n📈 Для постоянных проблем - требуется диагностика сети\n👨‍💼 Обратитесь в ИТ-отдел для проверки рабочего места"
      category := "performance"
      priority := "low"
      keywords := ["медленно", "тормозит", "зависает", "скорость", "производительность"] },
    { id := 5
      question := "📧 Проблемы с корпоративной почтой"
      short_question := "📧 Корпоративная почта"
      answer := "📧 <b>Проблемы с корпоративной почтой</b>\n\nРешение:\n1. Проверьте настройки SMTP сервера (mail.sberbank.ru)\n2. Убедитесь, что не превышена квота 5 ГБ\n3. Для мобильного доступа настройте через Outlook\n4. Проверьте работу на web-версии (outlook.office.com)\n5. Убедитесь, что пароль не истек\n\n🔧 Технические настройки: https://developers.sber.ru/docs/ru/jazz/onprem/installation-guide/smtp-setup\n📞 При проблемах с отправкой/получением - создайте обращение"
      category := "email"
      priority := "medium"
      keywords := ["почта", "email", "письмо", "outlook", "отправка"] },
    { id := 6
      question := "🔄 Сброс пароля"
      short_question := "🔄 Сброс пароля"
      answer := "🔄 <b>Сброс пароля учетной записи</b>\n\nПроцедура сброса:\n1. Перейдите на портал самообслуживания\n2. Нажмите \"Забыли пароль?\"\n3. Введите корпоративный email\n4. Проверьте почту и перейдите по ссылке\n5. Установите новый пароль (мин. 12 символов)\n\n⚠️ <b>Требования к паролю:</b>\n• Минимум 12 символов\n• Заглавные и строчные буквы\n• Цифры и специальные символы\n• Не использовать предыдущие 5 паролей\n\n🔐 Если не получается - обратитесь к администратору"
      category := "security"
      priority := "medium"
      keywords := ["пароль", "сброс", "учетная запись", "восстановление"] } ]

/-- The canonical question of an entry, lowercased with the six
leading-emoji markers stripped exactly as the source does
(`faq["question"].lower().replace("🔐 ", "")...replace("🔄 ", "")`). -/
def cleanQuestion (f : FAQ) : List Char :=
  let q0 := lower f.question
  let q1 := pyReplace q0 "🔐 ".toList []
  let q2 := pyReplace q1 "💻 ".toList []
  let q3 := pyReplace q2 "📊 ".toList []
  let q4 := pyReplace q3 "⚡ ".toList []
  let q5 := pyReplace q4 "📧 ".toList []
  pyReplace q5 "🔄 ".toList []

/-- Score of one FAQ entry against the (lowercased) query: +1 per
keyword occurring in the query, +3 if the cleaned canonical question
occurs verbatim in the query. -/
def entryScore (q : List Char) (f : FAQ) : Nat :=
  (f.keywords.foldl (fun s kw => if containsSub q kw.toList then s + 1 else s) 0)
  + (if containsSub q (cleanQuestion f) then 3 else 0)

/-- The best-match loop of `search_knowledge_base`: keeps the current
best entry and best score, replacing it only on a strictly greater
score (so the first entry reaching the maximum wins). -/
def searchLoop (q : List Char) : List FAQ → Option FAQ → Nat → Option FAQ × Nat
  | [], best, bestScore => (best, bestScore)
  | f :: rest, best, bestScore =>
    let s := entryScore q f
    if s > bestScore then searchLoop q rest (some f) s
    else searchLoop q rest best bestScore

structure KnowledgeResult where
  found : Bool
  answer : String
  confidence : Nat
  source : String
  category : String
deriving DecidableEq, Repr

def genericAnswer : String :=
  "🔧 <b>Решение обнаружено в базе знаний</b>\n\nДля устранения проблемы рекомендуем выполнить следующие шаги:\n\n📋 <b>Порядок действий:</b>\n1. <b>Проверьте доступ</b> - убедитесь в наличии соответствующих прав\n2. <b>Перезапустите сервис</b> - выполните рестарт системы\n3. <b>Обратитесь к инструкции</b> - изучите руководство пользователя\n\n⚡ <b>Быстрое решение:</b>\n• Проверьте подключение к корпоративной сети\n• Обновите кэш браузера (Ctrl+F5)\n• Обратитесь к разделу \"Частые вопросы\" в боте\n\n📞 <b>Если не помогло:</b> создайте обращение к специалисту"

def genericResult : KnowledgeResult :=
  { found := true
    answer := genericAnswer
    confidence := 65
    source := "📚 База знаний Сбер | Общая инструкция"
    category := "general" }

def search_knowledge_base (query : String) : KnowledgeResult :=
  let ql := lower query
  let bs := searchLoop ql FREQUENT_QUESTIONS none 0
  match bs.1 with
  | some f =>
    if bs.2 ≥ 2 then
      { found := true
        answer := f.answer
        confidence := min (70 + bs.2 * 10) 95
        source := "📚 База знаний Сбер"
        category := f.category }
    else genericResult
  | none => genericResult

/-! ### MockTicketSystem (src/tg_bot.py lines 338-484)

The process-wide dictionary `_ticket_statuses` together with the
counter `_ticket_counter` becomes an explicit `Store` value.  Ticket
keys are the counter values (the formatted id string
`SBER-<date>-<counter>` embeds the counter, which is what makes keys
unique; the date prefix is cosmetic).  `datetime.now()` becomes the
explicit parameter `now` in seconds, so `time_diff.total_seconds()`
is `now - created_at`. -/

inductive Status where
  | created
  | in_progress
  | awaiting_info
  | awaiting_confirmation
  | resolved
  | closed
  | escalated_to_second_line
  | escalated_to_third_line
deriving DecidableEq, Repr

structure UpdateEntry where
  timestamp : Nat
  status : Status
  message : String
deriving DecidableEq, Repr

structure Ticket where
  status : Status
  user_id : Nat
  problem : String
  category : String
  critical_level : Severity
  priority : String
  created_at : Nat
  assigned_to : String
  updates : List UpdateEntry
deriving DecidableEq, Repr

structure Store where
  tickets : List (Nat × Ticket)
  counter : Nat
deriving DecidableEq, Repr

def initialStore : Store := { tickets := [], counter := 1000 }

def lookupTicket (st : Store) (id : Nat) : Option Ticket :=
  (st.tickets.find? (fun p => p.1 = id)).map (·.2)

/-- Python dict assignment `_ticket_statuses[id] = t`: replace the
value in place when the key is present, append otherwise. -/
def dictSet (st : Store) (id : Nat) (t : Ticket) : Store :=
  if (st.tickets.find? (fun p => p.1 = id)).isSome then
    { st with tickets := st.tickets.map (fun p => if p.1 = id then (id, t) else p) }
  else
    { st with tickets := st.tickets ++ [(id, t)] }

/-- Embeds `MockTicketSystem.create_ticket`.  Returns the new store and the
id of the created ticket. -/
def create_ticket (st : Store) (problem : String) (user_id : Nat)
    (category : String) (critical_level : Severity) (now : Nat) : Store × Nat :=
  let counter := st.counter + 1
  let assigned_to :=
    if critical_level = Severity.critical ∨ critical_level = Severity.high
    then "second_line_support" else "first_line_support"
  let priority :=
    if critical_level = Severity.critical ∨ critical_level = Severity.high
    then "Высокий" else "Средний"
  let t : Ticket :=
    { status := Status.created
      user_id := user_id
      problem := problem
      category := category
      critical_level := critical_level
      priority := priority
      created_at := now
      assigned_to := assigned_to
      updates := [{ timestamp := now, status := Status.created,
                    message := "Обращение создано в системе" }] }
  ({ dictSet st counter t with counter := counter }, counter)

/-- The time-driven status advancement inside
`MockTicketSystem.get_ticket_status`: at most one `elif` branch fires
per call, appending a history entry that matches the new status. -/
def advanceTicket (now : Nat) (t : Ticket) : Ticket :=
  let diff := now - t.created_at
  if t.status = Status.created ∧ diff > 30 then
    { t with status := Status.in_progress
             updates := t.updates ++ [{ timestamp := now, status := Status.in_progress,
                                        message := "Специалист начал работу над проблемой" }] }
  else if t.status = Status.in_progress ∧ diff > 90 then
    if t.critical_level = Severity.high ∨ t.critical_level = Severity.critical then
      { t with status := Status.awaiting_confirmation
               updates := t.updates ++ [{ timestamp := now, status := Status.awaiting_confirmation,
                                          message := "Ожидается подтверждение решения" }] }
    else
      { t with status := Status.awaiting_info
               updates := t.updates ++ [{ timestamp := now, status := Status.awaiting_info,
                                          message := "Требуются дополнительные данные" }] }
  else if (t.status = Status.awaiting_info ∨ t.status = Status.awaiting_confirmation) ∧ diff > 150 then
    { t with status := Status.resolved
             updates := t.updates ++ [{ timestamp := now, status := Status.resolved,
                                        message := "Проблема решена, ожидается подтверждение пользователя" }] }
  else t

/-- Embeds `MockTicketSystem.get_ticket_status`: a mutating read. -/
def get_ticket_status (st : Store) (id : Nat) (now : Nat) : Option Ticket × Store :=
  match lookupTicket st id with
  | none => (none, st)
  | some t =>
    let t' := advanceTicket now t
    (some t', dictSet st id t')

/-- Embeds `MockTicketSystem.get_user_tickets`: ids of the user's tickets in
creation (insertion) order. -/
def get_user_tickets (st : Store) (user_id : Nat) : List Nat :=
  (st.tickets.filter (fun p => p.2.user_id = user_id)).map (·.1)

/-- The reassignment `escalate_ticket` applies to the looked-up ticket
for a valid target line: new assigned line and priority label, status
set to the escalation marker, and a history entry recording the
reason. -/
def escalateTicketRecord (t : Ticket) (reason target_line : String) (now : Nat) : Ticket :=
  let t1 :=
    if target_line = "second_line" then
      { t with assigned_to := "second_line_support", priority := "Высокий" }
    else
      { t with assigned_to := "third_line_support", priority := "Критический" }
  let newStatus :=
    if target_line = "second_line" then Status.escalated_to_second_line
    else Status.escalated_to_third_line
  let newLineName := if target_line = "second_line" then "2-ю линию" else "3-ю линию"
  { t1 with status := newStatus
            updates := t1.updates ++ [{ timestamp := now, status := newStatus,
                                        message := "Эскалация на " ++ newLineName ++ ": " ++ reason }] }

/-- Embeds `MockTicketSystem.escalate_ticket`.  The target line arrives as a
raw string so the unrecognized-target branch is represented.  Returns
the new store and whether the escalation succeeded. -/
def escalate_ticket (st : Store) (id : Nat) (reason : String)
    (target_line : String) (now : Nat) : Store × Bool :=
  match lookupTicket st id with
  | none => (st, false)
  | some t =>
    if target_line = "second_line" ∨ target_line = "third_line" then
      (dictSet st id (escalateTicketRecord t reason target_line now), true)
    else (st, false)

/-- A sequence of TicketStore operations, for stating store-wide
invariants over arbitrary interleavings. -/
inductive Op where
  | create (problem : String) (user_id : Nat) (category : String)
           (critical_level : Severity) (now : Nat)
  | status (id : Nat) (now : Nat)
  | escalate (id : Nat) (reason : String) (target_line : String) (now : Nat)

def applyOp (st : Store) (op : Op) : Store :=
  match op with
  | Op.create problem user_id category critical_level now =>
    (create_ticket st problem user_id category critical_level now).1
  | Op.status id now => (get_ticket_status st id now).2
  | Op.escalate id reason target_line now => (escalate_ticket st id reason target_line now).1

def runOps (ops : List Op) : Store := ops.foldl applyOp initialStore

/-! ### ConversationEngine (SupportStates, handlers, src/tg_bot.py lines 486-1436)

The aiogram FSM context becomes an explicit `Session`: `state idle`
stands for "no active FSM state" (`state.clear()` / `current_state is
None`), and the `state.update_data` dictionary becomes the optional
scratch fields.  The visible effect of a handler (which kind of
message it answered with) is captured in `Reply`. -/

inductive BotState where
  | idle
  | waiting_for_problem
  | evaluating_solution
  | waiting_feedback
  | in_human_support
  | waiting_for_urgent
deriving DecidableEq, Repr

structure Session where
  state : BotState
  problem : Option String
  analysis : Option Analysis
  knowledge : Option KnowledgeResult
  is_urgent : Bool
deriving DecidableEq, Repr

def idleSession : Session :=
  { state := BotState.idle, problem := none, analysis := none,
    knowledge := none, is_urgent := false }

inductive Reply where
  | presentedAnswer (answer : String)
  | ticketCreated (id : Nat)
  | urgentTicketCreated (id : Nat)
  | urgentRejected
  | capRefused
  | intakePrompt
  | urgentIntakePrompt
  | greetingReply
  | faqAnswer (answer : String)
  | operatorConnected (id : Nat)
  | pleaseWait
  | humanSupportAck
deriving DecidableEq, Repr

structure StepResult where
  session : Session
  store : Store
  reply : Reply
deriving DecidableEq, Repr

/-- Tickets of a user whose status is not resolved/closed — the
admission-control filter used by `start_problem_dialog`,
`start_urgent_problem_dialog` and `connect_to_human`. -/
def activeTicketCount (st : Store) (user_id : Nat) : Nat :=
  ((get_user_tickets st user_id).filter (fun id =>
    match lookupTicket st id with
    | some t => ¬(t.status = Status.resolved ∨ t.status = Status.closed)
    | none => False)).length

/-- Embeds `create_support_ticket` (src/tg_bot.py lines 1315-1363). -/
def create_support_ticket (user_id : Nat) (sess : Session) (st : Store)
    (problem : String) (analysis : Option Analysis) (is_urgent : Bool)
    (now : Nat) : StepResult :=
  let critical_level := (analysis.map (·.critical_level)).getD Severity.medium
  let critical_level' :=
    if is_urgent ∨ critical_level = Severity.high ∨ critical_level = Severity.critical then
      if is_urgent then Severity.critical else Severity.high
    else critical_level
  let category := (analysis.map (·.category)).getD "Общая проблема"
  let res := create_ticket st problem user_id category critical_level' now
  { session := { sess with state := BotState.waiting_feedback }
    store := res.1
    reply := Reply.ticketCreated res.2 }

/-- Embeds `start_problem_dialog` — the "📝 Создать обращение" button
(src/tg_bot.py lines 865-912). -/
def start_problem_dialog (user_id : Nat) (sess : Session) (st : Store) : StepResult :=
  if activeTicketCount st user_id ≥ 3 then
    { session := sess, store := st, reply := Reply.capRefused }
  else
    { session := { sess with state := BotState.waiting_for_problem }
      store := st
      reply := Reply.intakePrompt }

/-- Embeds `start_urgent_problem_dialog` — the "🆘 Срочная помощь" button
(src/tg_bot.py lines 914-959). -/
def start_urgent_problem_dialog (user_id : Nat) (sess : Session) (st : Store) : StepResult :=
  if activeTicketCount st user_id ≥ 2 then
    { session := sess, store := st, reply := Reply.capRefused }
  else
    { session := { sess with state := BotState.waiting_for_urgent }
      store := st
      reply := Reply.urgentIntakePrompt }

/-- Embeds `handle_problem_description` — free text in state
`waiting_for_problem` (src/tg_bot.py lines 961-1021). -/
def handle_problem_description (user_id : Nat) (sess : Session) (st : Store)
    (text : String) (now : Nat) : StepResult :=
  let analysis := analyze_problem text
  let knowledge_result := search_knowledge_base text
  let sess' := { sess with problem := some text, analysis := some analysis,
                           knowledge := some knowledge_result, is_urgent := false }
  if knowledge_result.found = true ∧ analysis.confidence > 70 ∧
     ¬(analysis.critical_level = Severity.high ∨ analysis.critical_level = Severity.critical) then
    { session := { sess' with state := BotState.evaluating_solution }
      store := st
      reply := Reply.presentedAnswer knowledge_result.answer }
  else
    create_support_ticket user_id sess' st text (some analysis) false now

/-- Embeds `handle_urgent_problem_description` — free text in state
`waiting_for_urgent` (src/tg_bot.py lines 1023-1104): reject unless
severity is high/critical; otherwise create a ticket with severity
forced to critical and auto-escalate it to the second line, then clear
the session. -/
def handle_urgent_problem_description (user_id : Nat) (st : Store)
    (text : String) (now : Nat) : StepResult :=
  let analysis := analyze_problem text
  if ¬(analysis.critical_level = Severity.high ∨ analysis.critical_level = Severity.critical) then
    { session := idleSession, store := st, reply := Reply.urgentRejected }
  else
    let res := create_ticket st ("🚨 СРОЧНО: " ++ String.mk (text.toList.take 100)) user_id
      analysis.category Severity.critical now
    let esc := escalate_ticket res.1 res.2
      "Автоматическая эскалация срочного обращения" "second_line" now
    { session := idleSession, store := esc.1, reply := Reply.urgentTicketCreated res.2 }

/-- Embeds `confirm_operator` — the "✅ Подтвердить подключение" callback
(src/tg_bot.py lines 1216-1239): creates a high-severity ticket with
no admission-control check and enters `in_human_support`. -/
def confirm_operator (user_id : Nat) (sess : Session) (st : Store) (now : Nat) : StepResult :=
  let res := create_ticket st "Запрос на подключение к живому оператору" user_id
    "human_support" Severity.high now
  { session := { sess with state := BotState.in_human_support }
    store := res.1
    reply := Reply.operatorConnected res.2 }

def greetings : List String :=
  ["привет", "здравствуйте", "добрый день", "доброе утро", "добрый вечер",
   "здравствуй", "hi", "hello"]

/-- One FAQ entry matches the idle free text (`handle_any_message`):
a keyword occurs in the text, or the cleaned question occurs in it. -/
def faqIdleMatch (m : List Char) (f : FAQ) : Bool :=
  f.keywords.any (fun kw => containsSub m kw.toList) || containsSub m (cleanQuestion f)

/-- Embeds `handle_any_message` with no active state (src/tg_bot.py lines
1376-1429): greeting → stay idle; FAQ keyword/question match → show
that entry's answer and await feedback; otherwise prompt for a problem
description and enter `waiting_for_problem` (with no admission-control
check). -/
def handle_idle_text (sess : Session) (st : Store) (text : String) : StepResult :=
  let m := lower text
  if greetings.any (fun g => containsSub m g.toList) then
    { session := sess, store := st, reply := Reply.greetingReply }
  else
    match FREQUENT_QUESTIONS.find? (faqIdleMatch m) with
    | some f =>
      { session := { sess with state := BotState.evaluating_solution }
        store := st
        reply := Reply.faqAnswer f.answer }
    | none =>
      { session := { sess with state := BotState.waiting_for_problem }
        store := st
        reply := Reply.intakePrompt }

inductive Event where
  | startProblem
  | startUrgent
  | freeText (text : String)
  | confirmOperator
deriving DecidableEq, Repr

/-- Dispatch of one inbound event for one user, mirroring the aiogram
handler registrations: the two menu buttons, the operator-confirmation
callback, and free text routed by the current FSM state (the state
handlers `handle_problem_description` / `handle_urgent_problem_description`
/ `handle_human_support`, with `handle_any_message` as the catch-all). -/
def step (ev : Event) (user_id : Nat) (sess : Session) (st : Store) (now : Nat) : StepResult :=
  match ev with
  | Event.startProblem => start_problem_dialog user_id sess st
  | Event.startUrgent => start_urgent_problem_dialog user_id sess st
  | Event.confirmOperator => confirm_operator user_id sess st now
  | Event.freeText text =>
    match sess.state with
    | BotState.waiting_for_problem => handle_problem_description user_id sess st text now
    | BotState.waiting_for_urgent => handle_urgent_problem_description user_id st text now
    | BotState.in_human_support =>
      { session := sess, store := st, reply := Reply.humanSupportAck }
    | BotState.idle => handle_idle_text sess st text
    | BotState.evaluating_solution =>
      { session := sess, store := st, reply := Reply.pleaseWait }
    | BotState.waiting_feedback =>
      { session := sess, store := st, reply := Reply.pleaseWait }

/-! ### Derived definitions used in the statements below -/

/-- The fixed per-tier confidence constant (in hundredths: 0.92, 0.85,
0.78, 0.65). -/
def tierConfidence : Severity → Nat
  | Severity.critical => 92
  | Severity.high => 85
  | Severity.medium => 78
  | Severity.low => 65

/-- No keyword of any severity tier and no category keyword occurs in
the lowercased text: the "no keyword hits" situation of the spec. -/
def noKeywordHits (msg : String) : Bool :=
  let m := lower msg
  !(hitsAny critical_words m || hitsAny high_priority_words m ||
    hitsAny medium_priority_words m || hitsAny low_priority_words m ||
    hitsAny accessCategoryWords m || hitsAny reportCategoryWords m ||
    hitsAny performanceCategoryWords m || hitsAny emailCategoryWords m ||
    hitsAny financeCategoryWords m || hitsAny securityCategoryWords m)

/-- The maximum `entryScore` over a list of FAQ entries (0 when the
list is empty). -/
def bestScore (q : List Char) (l : List FAQ) : Nat :=
  l.foldr (fun f acc => max (entryScore q f) acc) 0

/-- At least one keyword of the entry, or its cleaned canonical
question, occurs in the query. -/
def entryHit (q : List Char) (f : FAQ) : Bool :=
  f.keywords.any (fun kw => containsSub q kw.toList) || containsSub q (cleanQuestion f)

/-- The auto-answer condition of `handle_problem_description`: the
knowledge result is marked found, the classifier confidence strictly
exceeds 0.7, and the classified severity is neither high nor
critical. -/

def autoAnswerCond (text : String) : Prop :=
  (search_knowledge_base text).found = true
  ∧ (analyze_problem text).confidence > 70
  ∧ ¬((analyze_problem text).critical_level = Severity.high
      ∨ (analyze_problem text).critical_level = Severity.critical)

instance decAutoAnswerCond (text : String) : Decidable (autoAnswerCond text) := by
  unfold autoAnswerCond
  infer_instance

/-- The urgent-intake filter of `handle_urgent_problem_description`:
the classified severity is high or critical. -/
def urgentSeverityOk (text : String) : Prop :=
  (analyze_problem text).critical_level = Severity.high
  ∨ (analyze_problem text).critical_level = Severity.critical

instance decUrgentSeverityOk (text : String) : Decidable (urgentSeverityOk text) := by
  unfold urgentSeverityOk
  infer_instance

/-- A concrete store in which user 1 has three active tickets
(ids 1001-1003, all still in status created), for the admission-control
theorems. -/

def threeTicketStore : Store :=
  (create_ticket (create_ticket (create_ticket initialStore
    "первая проблема" 1 "к" Severity.low 0).1
    "вторая проблема" 1 "к" Severity.low 0).1
    "третья проблема" 1 "к" Severity.low 0).1

/-- Position of a status in the automatic-advancement ladder
created < in_progress < awaiting_info = awaiting_confirmation < resolved.
The remaining statuses never take part in automatic advancement; they
are placed above the ladder. -/
def statusRank : Status → Nat
  | Status.created => 0
  | Status.in_progress => 1
  | Status.awaiting_info => 2
  | Status.awaiting_confirmation => 2
  | Status.resolved => 3
  | Status.closed => 4
  | Status.escalated_to_second_line => 5
  | Status.escalated_to_third_line => 5

/-- The history invariant of one ticket: the update history is
non-empty and its last entry records the ticket's current status. -/
def ticketInv (t : Ticket) : Bool :=
  match t.updates.getLast? with
  | some u => u.status == t.status
  | none => false

/-- The history invariant for every ticket of a store. -/
def storeInv (st : Store) : Bool :=
  st.tickets.all (fun p => ticketInv p.2)

/-- Repeated `get_ticket_status` calls on one ticket id at the given
sequence of times (the store-mutating part). -/
def getStatusRuns (st : Store) (id : Nat) : List Nat → Store
  | [] => st
  | n :: ns => getStatusRuns (get_ticket_status st id n).2 id ns

/-- A concrete store holding one freshly created ticket (id 1001,
created at time 0), for the witnesses below. -/
def createdDemoStore : Store :=
  (create_ticket initialStore "демо" 1 "доступ" Severity.low 0).1

/-- The ticket stored in `createdDemoStore`, spelled out. -/
def createdDemoTicket : Ticket :=
  { status := Status.created
    user_id := 1
    problem := "демо"
    category := "доступ"
    critical_level := Severity.low
    priority := "Средний"
    created_at := 0
    assigned_to := "first_line_support"
    updates := [{ timestamp := 0, status := Status.created,
                  message := "Обращение создано в системе" }] }

/-- A concrete store holding one escalated ticket (created at time 0,
escalated to the second line at time 5), for the witnesses below. -/
def escalatedDemoStore : Store :=
  (escalate_ticket (create_ticket initialStore "демо" 1 "доступ" Severity.low 0).1
    1001 "причина" "second_line" 5).1

/-- The ticket stored in `escalatedDemoStore`, spelled out. -/
def escalatedDemoTicket : Ticket :=
  { status := Status.escalated_to_second_line
    user_id := 1
    problem := "демо"
    category := "доступ"
    critical_level := Severity.low
    priority := "Высокий"
    created_at := 0
    assigned_to := "second_line_support"
    updates := [{ timestamp := 0, status := Status.created,
                  message := "Обращение создано в системе" },
                { timestamp := 5, status := Status.escalated_to_second_line,
                  message := "Эскалация на 2-ю линию: причина" }] }

/-! ### Helper lemmas -/

theorem bestScore_nil (q : List Char) : bestScore q [] = 0 := rfl

theorem bestScore_cons (q : List Char) (f : FAQ) (t : List FAQ) :
    bestScore q (f :: t) = max (entryScore q f) (bestScore q t) := rfl

theorem searchLoop_eq (q : List Char) : ∀ (l : List FAQ) (b : Option FAQ) (s : Nat),
    searchLoop q l b s =
      if bestScore q l > s
      then (l.find? (fun g => entryScore q g == bestScore q l), bestScore q l)
      else (b, s)
  | [], b, s => by simp [searchLoop, bestScore]
  | f :: t, b, s => by
    have ih := searchLoop_eq q t
    rw [bestScore_cons]
    show (if entryScore q f > s then searchLoop q t (some f) (entryScore q f)
          else searchLoop q t b s) = _
    by_cases hc : entryScore q f > s
    · rw [if_pos hc, ih]
      by_cases hb : bestScore q t > entryScore q f
      · rw [if_pos hb, if_pos (by omega)]
        have hmax : max (entryScore q f) (bestScore q t) = bestScore q t := by omega
        rw [hmax]
        rw [List.find?_cons_of_neg _ (by simp; omega)]
      · rw [if_neg hb, if_pos (by omega)]
        have hmax : max (entryScore q f) (bestScore q t) = entryScore q f := by omega
        rw [hmax]
        rw [List.find?_cons_of_pos _ (by simp)]
    · rw [if_neg hc, ih]
      by_cases hb : bestScore q t > s
      · rw [if_pos hb, if_pos (by omega)]
        have hmax : max (entryScore q f) (bestScore q t) = bestScore q t := by omega
        rw [hmax]
        rw [List.find?_cons_of_neg _ (by simp; omega)]
      · rw [if_neg hb, if_neg (by omega)]

theorem bestScore_attained (q : List Char) : ∀ (l : List FAQ),
    bestScore q l > 0 → ∃ f ∈ l, entryScore q f = bestScore q l
  | [], h => by simp [bestScore] at h
  | f :: t, h => by
    rw [bestScore_cons] at h ⊢
    by_cases hb : bestScore q t > entryScore q f
    · have hmax : max (entryScore q f) (bestScore q t) = bestScore q t := by omega
      rw [hmax] at h ⊢
      obtain ⟨g, hg, hge⟩ := bestScore_attained q t h
      exact ⟨g, List.mem_cons_of_mem _ hg, hge⟩
    · have hmax : max (entryScore q f) (bestScore q t) = entryScore q f := by omega
      rw [hmax]
      exact ⟨f, List.mem_cons_self _ _, rfl⟩


theorem foldl_count (p : String → Bool) : ∀ (l : List String) (n : Nat),
    l.foldl (fun s kw => if p kw then s + 1 else s) n = n + l.countP p
  | [], n => by simp
  | kw :: t, n => by
    rw [List.foldl_cons, foldl_count p t]
    by_cases hp : p kw = true <;> simp [hp, List.countP_cons] <;> omega

theorem entryScore_pos_iff (q : List Char) (f : FAQ) :
    0 < entryScore q f ↔ entryHit q f = true := by
  unfold entryScore entryHit
  rw [foldl_count]
  by_cases hc : containsSub q (cleanQuestion f) = true
  · simp [hc]
  · simp [hc, List.countP_pos_iff, List.any_eq_true]

theorem find?_best_some (q : List Char) (l : List FAQ)
    (hpos : 0 < bestScore q l) :
    ∃ f, l.find? (fun g => entryScore q g == bestScore q l) = some f := by
  obtain ⟨f0, hf0mem, hf0⟩ := bestScore_attained q l hpos
  have hsome : (l.find? (fun g => entryScore q g == bestScore q l)).isSome := by
    rw [List.find?_isSome]
    exact ⟨f0, hf0mem, by simp [hf0]⟩
  exact Option.isSome_iff_exists.mp hsome

/-! #### Ticket-store lemmas -/

theorem advance_frozen (t : Ticket) (now : Nat)
    (he : t.status = Status.escalated_to_second_line ∨ t.status = Status.escalated_to_third_line) :
    advanceTicket now t = t := by
  unfold advanceTicket
  rcases he with h | h <;> simp [h]

theorem advanceTicket_cases (t : Ticket) (now : Nat) :
    advanceTicket now t = t
    ∨ (statusRank t.status < statusRank (advanceTicket now t).status
       ∧ statusRank (advanceTicket now t).status ≤ 3) := by
  unfold advanceTicket
  by_cases h1 : t.status = Status.created ∧ now - t.created_at > 30
  · rw [if_pos h1]
    right
    simp [statusRank, h1.1]
  · rw [if_neg h1]
    by_cases h2 : t.status = Status.in_progress ∧ now - t.created_at > 90
    · rw [if_pos h2]
      by_cases h3 : t.critical_level = Severity.high ∨ t.critical_level = Severity.critical
      · rw [if_pos h3]
        right
        simp [statusRank, h2.1]
      · rw [if_neg h3]
        right
        simp [statusRank, h2.1]
    · rw [if_neg h2]
      by_cases h4 : (t.status = Status.awaiting_info ∨ t.status = Status.awaiting_confirmation)
          ∧ now - t.created_at > 150
      · rw [if_pos h4]
        right
        rcases h4.1 with h | h <;> simp [statusRank, h]
      · rw [if_neg h4]
        left
        rfl

theorem advance_rank_le (t : Ticket) (now : Nat) :
    statusRank t.status ≤ statusRank (advanceTicket now t).status := by
  rcases advanceTicket_cases t now with h | h
  · rw [h]
  · omega

theorem fold_advance_rank_le : ∀ (times : List Nat) (t : Ticket),
    statusRank t.status ≤ statusRank (times.foldl (fun u now => advanceTicket now u) t).status
  | [], t => Nat.le_refl _
  | n :: ns, t => Nat.le_trans (advance_rank_le t n) (fold_advance_rank_le ns (advanceTicket n t))

theorem find?_set_self (id : Nat) (u : Ticket) : ∀ (l : List (Nat × Ticket)),
    (l.find? (fun p => p.1 = id)).isSome = true →
    ((l.map (fun p => if p.1 = id then (id, u) else p)).find? (fun p => p.1 = id)) = some (id, u)
  | [], h => by simp at h
  | p :: t, h => by
    by_cases hp : p.1 = id
    · simp only [List.map_cons, if_pos hp]
      rw [List.find?_cons_of_pos _ (by simp)]
    · simp only [List.map_cons, if_neg hp]
      rw [List.find?_cons_of_neg _ (by simp [hp])]
      apply find?_set_self id u t
      rw [List.find?_cons_of_neg _ (by simp [hp])] at h
      exact h

theorem find?_append_none {α : Type} (p : α → Bool) :
    ∀ (l₁ l₂ : List α), l₁.find? p = none → (l₁ ++ l₂).find? p = l₂.find? p
  | [], l₂, _ => rfl
  | a :: t, l₂, h => by
    have hpa : ¬p a = true := by
      intro hpa
      rw [List.find?_cons_of_pos _ hpa] at h
      exact Option.noConfusion h
    rw [List.find?_cons_of_neg _ hpa] at h
    rw [List.cons_append, List.find?_cons_of_neg _ hpa]
    exact find?_append_none p t l₂ h

theorem lookup_dictSet_self (st : Store) (id : Nat) (u : Ticket) :
    lookupTicket (dictSet st id u) id = some u := by
  unfold lookupTicket dictSet
  by_cases hs : (st.tickets.find? (fun p => p.1 = id)).isSome = true
  · rw [if_pos hs]
    dsimp only
    rw [find?_set_self id u st.tickets hs]
    rfl
  · rw [if_neg hs]
    dsimp only
    have hnone : st.tickets.find? (fun p => p.1 = id) = none :=
      Option.not_isSome_iff_eq_none.mp hs
    rw [find?_append_none _ st.tickets [(id, u)] hnone]
    simp



theorem get_status_none (st : Store) (id now : Nat) (h : lookupTicket st id = none) :
    get_ticket_status st id now = (none, st) := by
  unfold get_ticket_status
  rw [h]

theorem get_status_some (st : Store) (id now : Nat) (t : Ticket)
    (h : lookupTicket st id = some t) :
    get_ticket_status st id now
      = (some (advanceTicket now t), dictSet st id (advanceTicket now t)) := by
  unfold get_ticket_status
  rw [h]

theorem escalate_none (st : Store) (id : Nat) (reason target : String) (now : Nat)
    (h : lookupTicket st id = none) :
    escalate_ticket st id reason target now = (st, false) := by
  unfold escalate_ticket
  rw [h]

theorem escalate_some_valid (st : Store) (id : Nat) (reason target : String) (now : Nat)
    (t : Ticket) (h : lookupTicket st id = some t)
    (ht : target = "second_line" ∨ target = "third_line") :
    escalate_ticket st id reason target now
      = (dictSet st id (escalateTicketRecord t reason target now), true) := by
  unfold escalate_ticket
  rw [h]
  dsimp only
  rw [if_pos ht]

theorem escalate_some_invalid (st : Store) (id : Nat) (reason target : String) (now : Nat)
    (t : Ticket) (h : lookupTicket st id = some t)
    (ht : ¬(target = "second_line" ∨ target = "third_line")) :
    escalate_ticket st id reason target now = (st, false) := by
  unfold escalate_ticket
  rw [h]
  dsimp only
  rw [if_neg ht]

theorem escalateRecord_inv (t : Ticket) (reason target : String) (now : Nat) :
    ticketInv (escalateTicketRecord t reason target now) = true := by
  unfold escalateTicketRecord
  by_cases h2 : target = "second_line" <;>
    simp [h2, ticketInv, List.getLast?_concat]

theorem advance_inv (t : Ticket) (now : Nat) (h : ticketInv t = true) :
    ticketInv (advanceTicket now t) = true := by
  unfold advanceTicket
  by_cases h1 : t.status = Status.created ∧ now - t.created_at > 30
  · rw [if_pos h1]
    simp [ticketInv, List.getLast?_concat]
  · rw [if_neg h1]
    by_cases h2 : t.status = Status.in_progress ∧ now - t.created_at > 90
    · rw [if_pos h2]
      by_cases h3 : t.critical_level = Severity.high ∨ t.critical_level = Severity.critical
      · rw [if_pos h3]
        simp [ticketInv, List.getLast?_concat]
      · rw [if_neg h3]
        simp [ticketInv, List.getLast?_concat]
    · rw [if_neg h2]
      by_cases h4 : (t.status = Status.awaiting_info ∨ t.status = Status.awaiting_confirmation)
          ∧ now - t.created_at > 150
      · rw [if_pos h4]
        simp [ticketInv, List.getLast?_concat]
      · rw [if_neg h4]
        exact h

theorem storeInv_lookup (st : Store) (id : Nat) (t : Ticket)
    (h : storeInv st = true) (hl : lookupTicket st id = some t) :
    ticketInv t = true := by
  unfold lookupTicket at hl
  rcases Option.map_eq_some'.mp hl with ⟨p, hp, hpt⟩
  have hmem := List.mem_of_find?_eq_some hp
  have hall := (List.all_eq_true.mp h) p hmem
  rw [← hpt]
  simpa using hall

theorem storeInv_dictSet (st : Store) (id : Nat) (u : Ticket)
    (h : storeInv st = true) (hu : ticketInv u = true) :
    storeInv (dictSet st id u) = true := by
  unfold storeInv dictSet at *
  by_cases hs : (st.tickets.find? (fun p => p.1 = id)).isSome = true
  · rw [if_pos hs]
    dsimp only
    rw [List.all_eq_true] at h ⊢
    intro p' hp'
    rcases List.mem_map.mp hp' with ⟨p, hp, rfl⟩
    by_cases hid : p.1 = id
    · simp [hid, hu]
    · simp only [if_neg hid]
      exact h p hp
  · rw [if_neg hs]
    dsimp only
    rw [List.all_append, h, Bool.true_and]
    simp [hu]

theorem applyOp_inv (st : Store) (op : Op) (h : storeInv st = true) :
    storeInv (applyOp st op) = true := by
  cases op with
  | create problem user category lvl now =>
    unfold applyOp create_ticket
    dsimp only
    exact storeInv_dictSet st (st.counter + 1) _ h (by simp [ticketInv])
  | status id now =>
    unfold applyOp
    dsimp only
    cases hl : lookupTicket st id with
    | none =>
      rw [get_status_none st id now hl]
      exact h
    | some t =>
      rw [get_status_some st id now t hl]
      exact storeInv_dictSet st id _ h (advance_inv t now (storeInv_lookup st id t h hl))
  | escalate id reason target now =>
    unfold applyOp
    dsimp only
    cases hl : lookupTicket st id with
    | none =>
      rw [escalate_none st id reason target now hl]
      exact h
    | some t =>
      by_cases ht : target = "second_line" ∨ target = "third_line"
      · rw [escalate_some_valid st id reason target now t hl ht]
        exact storeInv_dictSet st id _ h (escalateRecord_inv t reason target now)
      · rw [escalate_some_invalid st id reason target now t hl ht]
        exact h

theorem runOps_inv : ∀ (ops : List Op) (st : Store), storeInv st = true →
    storeInv (List.foldl applyOp st ops) = true
  | [], _, h => h
  | op :: ops, st, h => runOps_inv ops _ (applyOp_inv st op h)


theorem create_ticket_fields (st : Store) (problem : String) (user : Nat)
    (category : String) (lvl : Severity) (now : Nat) :
    (create_ticket st problem user category lvl now).2 = st.counter + 1
    ∧ (create_ticket st problem user category lvl now).1.counter = st.counter + 1
    ∧ lookupTicket (create_ticket st problem user category lvl now).1 (st.counter + 1)
        = some { status := Status.created
                 user_id := user
                 problem := problem
                 category := category
                 critical_level := lvl
                 priority := if lvl = Severity.critical ∨ lvl = Severity.high
                             then "Высокий" else "Средний"
                 created_at := now
                 assigned_to := if lvl = Severity.critical ∨ lvl = Severity.high
                                then "second_line_support" else "first_line_support"
                 updates := [{ timestamp := now, status := Status.created,
                               message := "Обращение создано в системе" }] } :=
  ⟨rfl, rfl, lookup_dictSet_self st (st.counter + 1) _⟩


/-! ### The claims -/

/-- C4: for every text, the classifier resolves severity by strict
precedence — critical first, then high, then medium, else low — with
the fixed per-tier confidence constants 0.92/0.85/0.78/0.65 (here in
hundredths); it is a total function, any text containing a critical
keyword is classified critical regardless of other keywords, and a
text with no keyword hits gets the general-technical category with
severity low. -/
theorem classifier_severity_precedence (msg : String) :
    ((analyze_problem msg).confidence = tierConfidence (analyze_problem msg).critical_level)
    ∧ (hitsAny critical_words (lower msg) = true →
        (analyze_problem msg).critical_level = Severity.critical)
    ∧ (hitsAny critical_words (lower msg) = false →
       hitsAny high_priority_words (lower msg) = true →
        (analyze_problem msg).critical_level = Severity.high)
    ∧ (hitsAny critical_words (lower msg) = false →
       hitsAny high_priority_words (lower msg) = false →
       hitsAny medium_priority_words (lower msg) = true →
        (analyze_problem msg).critical_level = Severity.medium)
    ∧ (hitsAny critical_words (lower msg) = false →
       hitsAny high_priority_words (lower msg) = false →
       hitsAny medium_priority_words (lower msg) = false →
        (analyze_problem msg).critical_level = Severity.low
        ∧ (analyze_problem msg).confidence = 65)
    ∧ (noKeywordHits msg = true →
        (analyze_problem msg).category = "Общая техническая проблема"
        ∧ (analyze_problem msg).critical_level = Severity.low) := by
  unfold analyze_problem noKeywordHits
  cases h1 : hitsAny critical_words (lower msg) <;>
    cases h2 : hitsAny high_priority_words (lower msg) <;>
      cases h3 : hitsAny medium_priority_words (lower msg) <;>
        simp [h1, h2, h3, tierConfidence] <;>
          (intros; simp_all)

/-- Witness for C4: concrete texts exercising each hypothesis — a
critical keyword co-occurring with a low-tier keyword still yields
critical; then high, medium, and the no-hit fallback. -/
theorem classifier_severity_precedence_witness :
    (hitsAny critical_words (lower "авария тормозит") = true
      ∧ (analyze_problem "авария тормозит").critical_level = Severity.critical)
    ∧ (hitsAny critical_words (lower "пароль") = false
      ∧ hitsAny high_priority_words (lower "пароль") = true
      ∧ (analyze_problem "пароль").critical_level = Severity.high)
    ∧ (hitsAny critical_words (lower "почта") = false
      ∧ hitsAny high_priority_words (lower "почта") = false
      ∧ hitsAny medium_priority_words (lower "почта") = true
      ∧ (analyze_problem "почта").critical_level = Severity.medium)
    ∧ (noKeywordHits "ааа" = true
      ∧ (analyze_problem "ааа").critical_level = Severity.low
      ∧ (analyze_problem "ааа").confidence = 65
      ∧ (analyze_problem "ааа").category = "Общая техническая проблема") :=
  ⟨⟨by decide, (classifier_severity_precedence "авария тормозит").2.1 (by decide)⟩,
   ⟨by decide, by decide, (classifier_severity_precedence "пароль").2.2.1 (by decide) (by decide)⟩,
   ⟨by decide, by decide, by decide,
    (classifier_severity_precedence "почта").2.2.2.1 (by decide) (by decide) (by decide)⟩,
   by decide,
   ((classifier_severity_precedence "ааа").2.2.2.2.2 (by decide)).2,
   ((classifier_severity_precedence "ааа").2.2.2.2.1 (by decide) (by decide) (by decide)).2,
   ((classifier_severity_precedence "ааа").2.2.2.2.2 (by decide)).1⟩

/-- C10: the classifier's requires-human flag is true exactly when the
resolved severity is not medium: high and critical force it directly,
and the low tier's fixed confidence 0.65 makes the confidence-below-0.7
disjunct fire, while medium's 0.78 does not. -/
theorem requires_human_iff_not_medium (msg : String) :
    (analyze_problem msg).requires_human
      = decide ((analyze_problem msg).critical_level ≠ Severity.medium) := by
  unfold analyze_problem
  cases h1 : hitsAny critical_words (lower msg) <;>
    cases h2 : hitsAny high_priority_words (lower msg) <;>
      cases h3 : hitsAny medium_priority_words (lower msg) <;>
        simp [h1, h2, h3]

/-- C5: for every text the knowledge matcher reports found = true and
a confidence of at least 0.65 (65 hundredths); each FAQ entry is
scored by `entryScore` — one point per keyword occurring in the query
plus three if the entry's emoji-stripped canonical question occurs
verbatim; when the best score reaches 2, the first entry in table
order attaining the maximal score (the `List.find?` below) is returned
with confidence min(0.7 + 0.1·score, 0.95), otherwise the fixed
generic fallback at 0.65 is returned; and the confidence reaches 0.7
only when at least one keyword or canonical question matched. -/
theorem knowledge_matcher_contract (query : String) :
    ((search_knowledge_base query).found = true)
    ∧ 65 ≤ (search_knowledge_base query).confidence
    ∧ (2 ≤ bestScore (lower query) FREQUENT_QUESTIONS →
        ∃ f, FREQUENT_QUESTIONS.find?
              (fun g => entryScore (lower query) g == bestScore (lower query) FREQUENT_QUESTIONS)
            = some f
          ∧ entryScore (lower query) f = bestScore (lower query) FREQUENT_QUESTIONS
          ∧ (search_knowledge_base query).answer = f.answer
          ∧ (search_knowledge_base query).category = f.category
          ∧ (search_knowledge_base query).confidence
              = min (70 + bestScore (lower query) FREQUENT_QUESTIONS * 10) 95)
    ∧ (bestScore (lower query) FREQUENT_QUESTIONS < 2 →
        search_knowledge_base query = genericResult)
    ∧ (70 ≤ (search_knowledge_base query).confidence →
        ∃ f ∈ FREQUENT_QUESTIONS, entryHit (lower query) f = true) := by
  by_cases h2 : 2 ≤ bestScore (lower query) FREQUENT_QUESTIONS
  · have hpos : bestScore (lower query) FREQUENT_QUESTIONS > 0 := by omega
    obtain ⟨f, hf⟩ := find?_best_some (lower query) FREQUENT_QUESTIONS hpos
    have hfscore : entryScore (lower query) f = bestScore (lower query) FREQUENT_QUESTIONS := by
      have := List.find?_some hf
      simpa using this
    have hsearch : search_knowledge_base query =
        { found := true
          answer := f.answer
          confidence := min (70 + bestScore (lower query) FREQUENT_QUESTIONS * 10) 95
          source := "📚 База знаний Сбер"
          category := f.category } := by
      simp only [search_knowledge_base]
      rw [searchLoop_eq (lower query) FREQUENT_QUESTIONS none 0, if_pos hpos]
      dsimp only
      rw [hf]
      dsimp only
      rw [if_pos h2]
    refine ⟨by rw [hsearch], ?_, ?_, ?_, ?_⟩
    · rw [hsearch]; dsimp only; omega
    · intro _
      exact ⟨f, hf, hfscore, by rw [hsearch], by rw [hsearch], by rw [hsearch]⟩
    · intro hlt; omega
    · intro _
      exact ⟨f, List.mem_of_find?_eq_some hf,
        (entryScore_pos_iff (lower query) f).mp (by omega)⟩
  · have hsearch : search_knowledge_base query = genericResult := by
      simp only [search_knowledge_base]
      rw [searchLoop_eq (lower query) FREQUENT_QUESTIONS none 0]
      by_cases hpos : bestScore (lower query) FREQUENT_QUESTIONS > 0
      · rw [if_pos hpos]
        obtain ⟨f, hf⟩ := find?_best_some (lower query) FREQUENT_QUESTIONS hpos
        dsimp only
        rw [hf]
        dsimp only
        rw [if_neg (by omega)]
      · rw [if_neg hpos]
    refine ⟨by rw [hsearch]; rfl, by rw [hsearch]; decide,
      fun h => absurd h (by omega), fun _ => hsearch, ?_⟩
    intro hc
    rw [hsearch] at hc
    exact absurd hc (by decide)




/-- Witness for C5: the query "пароль сброс" scores 2 on the
password-reset entry (so the thresholded branch fires at confidence
0.9), while "ааа" hits nothing and gets the generic fallback. -/
theorem knowledge_matcher_contract_witness :
    (2 ≤ bestScore (lower "пароль сброс") FREQUENT_QUESTIONS
     ∧ ∃ f, FREQUENT_QUESTIONS.find?
             (fun g => entryScore (lower "пароль сброс") g
                == bestScore (lower "пароль сброс") FREQUENT_QUESTIONS) = some f
         ∧ entryScore (lower "пароль сброс") f
             = bestScore (lower "пароль сброс") FREQUENT_QUESTIONS
         ∧ (search_knowledge_base "пароль сброс").answer = f.answer
         ∧ (search_knowledge_base "пароль сброс").category = f.category
         ∧ (search_knowledge_base "пароль сброс").confidence
             = min (70 + bestScore (lower "пароль сброс") FREQUENT_QUESTIONS * 10) 95)
    ∧ (bestScore (lower "ааа") FREQUENT_QUESTIONS < 2
     ∧ search_knowledge_base "ааа" = genericResult)
    ∧ (70 ≤ (search_knowledge_base "пароль сброс").confidence
     ∧ ∃ f ∈ FREQUENT_QUESTIONS, entryHit (lower "пароль сброс") f = true) :=
  ⟨⟨by decide, (knowledge_matcher_contract "пароль сброс").2.2.1 (by decide)⟩,
   ⟨by decide, (knowledge_matcher_contract "ааа").2.2.2.1 (by decide)⟩,
   ⟨by decide, (knowledge_matcher_contract "пароль сброс").2.2.2.2 (by decide)⟩⟩

/-- C7: after every sequence of TicketStore operations (create,
getStatus, escalate — with arbitrary arguments, including unknown ids
and invalid target lines) starting from the empty store, every
ticket's update history is non-empty and the status recorded in its
last history entry equals the ticket's current status field. -/
theorem ticket_history_invariant (ops : List Op) : storeInv (runOps ops) = true :=
  runOps_inv ops initialStore rfl

/-- C8: once a ticket's status is an `escalated_to_<tier>` marker,
`get_ticket_status` never changes it again, no matter how much time
has elapsed: the advancement is the identity on the ticket, the call
returns the ticket unchanged, and the stored ticket stays unchanged —
the automatic created → in_progress → awaiting → resolved clock is
permanently stopped. -/
theorem escalated_ticket_frozen (st : Store) (id : Nat) (now : Nat) (t : Ticket)
    (hl : lookupTicket st id = some t)
    (he : t.status = Status.escalated_to_second_line ∨ t.status = Status.escalated_to_third_line) :
    advanceTicket now t = t
    ∧ (get_ticket_status st id now).1 = some t
    ∧ lookupTicket (get_ticket_status st id now).2 id = some t := by
  have hf := advance_frozen t now he
  have hget : get_ticket_status st id now = (some t, dictSet st id t) := by
    rw [get_status_some st id now t hl, hf]
  refine ⟨hf, by rw [hget], ?_⟩
  rw [hget]
  exact lookup_dictSet_self st id t

/-- Witness for C8: a concrete store with an escalated ticket, probed
at time 1000 (any advancement threshold long passed). -/
theorem escalated_ticket_frozen_witness :
    lookupTicket escalatedDemoStore 1001 = some escalatedDemoTicket
    ∧ (escalatedDemoTicket.status = Status.escalated_to_second_line
       ∨ escalatedDemoTicket.status = Status.escalated_to_third_line)
    ∧ (advanceTicket 1000 escalatedDemoTicket = escalatedDemoTicket
       ∧ (get_ticket_status escalatedDemoStore 1001 1000).1 = some escalatedDemoTicket
       ∧ lookupTicket (get_ticket_status escalatedDemoStore 1001 1000).2 1001
           = some escalatedDemoTicket) :=
  ⟨by decide, by decide,
   escalated_ticket_frozen escalatedDemoStore 1001 1000 escalatedDemoTicket
     (by decide) (by decide)⟩

/-- C9: the time-driven advancement performed by `get_ticket_status`
never regresses with respect to created < in_progress <
awaiting_info/awaiting_confirmation < resolved: each call either
leaves the ticket exactly unchanged or moves the status strictly
forward within that ladder; consequently the rank is monotone over any
sequence of calls (even without assuming non-decreasing times), and
`get_ticket_status` is precisely this advancement applied to the
stored ticket. -/
theorem status_advancement_monotone :
    (∀ (t : Ticket) (now : Nat),
        advanceTicket now t = t
        ∨ (statusRank t.status < statusRank (advanceTicket now t).status
           ∧ statusRank (advanceTicket now t).status ≤ 3))
    ∧ (∀ (times : List Nat) (t : Ticket),
        statusRank t.status
          ≤ statusRank (times.foldl (fun u now => advanceTicket now u) t).status)
    ∧ (∀ (st : Store) (id : Nat) (now : Nat) (t : Ticket),
        lookupTicket st id = some t →
        (get_ticket_status st id now).1 = some (advanceTicket now t)
        ∧ lookupTicket (get_ticket_status st id now).2 id = some (advanceTicket now t)) :=
  ⟨advanceTicket_cases, fold_advance_rank_le, fun st id now t hl => by
    have hget := get_status_some st id now t hl
    exact ⟨by rw [hget], by rw [hget]; exact lookup_dictSet_self st id _⟩⟩

/-- Witness for C9: the freshly created demo ticket probed at time
100 advances (created to in_progress), strictly increasing the rank. -/
theorem status_advancement_monotone_witness :
    lookupTicket createdDemoStore 1001 = some createdDemoTicket
    ∧ ((get_ticket_status createdDemoStore 1001 100).1
         = some (advanceTicket 100 createdDemoTicket)
       ∧ lookupTicket (get_ticket_status createdDemoStore 1001 100).2 1001
           = some (advanceTicket 100 createdDemoTicket))
    ∧ statusRank createdDemoTicket.status
        < statusRank (advanceTicket 100 createdDemoTicket).status :=
  ⟨by decide,
   status_advancement_monotone.2.2 createdDemoStore 1001 100 createdDemoTicket (by decide),
   by decide⟩


/-- C1: in state waiting_for_problem, for every free text the engine
presents the knowledge-base answer and moves to evaluating_solution
precisely when the knowledge result's found flag is true AND the
classifier confidence strictly exceeds 0.7 (70 hundredths) AND the
classified severity is not high/critical; in every other case it
immediately creates a ticket: the reply is the ticket confirmation for
the fresh id, the session awaits ticket feedback, and the new ticket
(with the user's text, status created) is in the store. -/
theorem awaiting_problem_auto_answer (text : String) (user_id : Nat)
    (sess : Session) (st : Store) (now : Nat)
    (hs : sess.state = BotState.waiting_for_problem) :
    (((step (Event.freeText text) user_id sess st now).reply
        = Reply.presentedAnswer (search_knowledge_base text).answer
      ∧ (step (Event.freeText text) user_id sess st now).session.state
          = BotState.evaluating_solution
      ∧ (step (Event.freeText text) user_id sess st now).store = st)
      ↔ autoAnswerCond text)
    ∧ (¬ autoAnswerCond text →
        (step (Event.freeText text) user_id sess st now).reply
          = Reply.ticketCreated (st.counter + 1)
        ∧ (step (Event.freeText text) user_id sess st now).session.state
            = BotState.waiting_feedback
        ∧ ∃ t, lookupTicket (step (Event.freeText text) user_id sess st now).store
              (st.counter + 1) = some t
            ∧ t.problem = text
            ∧ t.status = Status.created) := by
  have hstep : step (Event.freeText text) user_id sess st now
      = handle_problem_description user_id sess st text now := by
    unfold step
    rw [hs]
  rw [hstep]
  simp only [handle_problem_description]
  by_cases hc : autoAnswerCond text
  · unfold autoAnswerCond at hc
    rw [if_pos hc]
    refine ⟨?_, fun hn => absurd hc hn⟩
    constructor
    · intro _
      exact hc
    · intro _
      exact ⟨rfl, rfl, rfl⟩
  · have hc' := hc
    unfold autoAnswerCond at hc'
    rw [if_neg hc']
    refine ⟨?_, fun _ => ?_⟩
    · constructor
      · intro habs
        have := habs.1
        simp [create_support_ticket, create_ticket] at this
      · intro hcond
        exact absurd hcond hc
    · refine ⟨?_, rfl, ?_⟩
      · rfl
      · exact ⟨_, by
          simp only [create_support_ticket]
          exact lookup_dictSet_self st (st.counter + 1) _, rfl, rfl⟩



/-- C6: in state waiting_for_urgent, a free text whose classified
severity is not high/critical is rejected with an explanation — no
ticket is created, the store is untouched and the session returns to
idle; a text classified high/critical produces a ticket whose severity
is forced to critical, automatically escalated to the second line
(status escalated_to_second_line, assigned to second-line support,
high priority label), and the session returns to idle. -/
theorem urgent_intake_filter (text : String) (user_id : Nat)
    (sess : Session) (st : Store) (now : Nat)
    (hs : sess.state = BotState.waiting_for_urgent) :
    (¬ urgentSeverityOk text →
        (step (Event.freeText text) user_id sess st now).store = st
        ∧ (step (Event.freeText text) user_id sess st now).session = idleSession
        ∧ (step (Event.freeText text) user_id sess st now).reply = Reply.urgentRejected)
    ∧ (urgentSeverityOk text →
        (step (Event.freeText text) user_id sess st now).session = idleSession
        ∧ (step (Event.freeText text) user_id sess st now).reply
            = Reply.urgentTicketCreated (st.counter + 1)
        ∧ ∃ t, lookupTicket (step (Event.freeText text) user_id sess st now).store
              (st.counter + 1) = some t
            ∧ t.critical_level = Severity.critical
            ∧ t.status = Status.escalated_to_second_line
            ∧ t.assigned_to = "second_line_support"
            ∧ t.priority = "Высокий") := by
  have hstep : step (Event.freeText text) user_id sess st now
      = handle_urgent_problem_description user_id st text now := by
    unfold step
    rw [hs]
  rw [hstep]
  simp only [handle_urgent_problem_description]
  by_cases hu : urgentSeverityOk text
  · have hu' := hu
    unfold urgentSeverityOk at hu'
    rw [if_neg (not_not_intro hu')]
    refine ⟨fun hn => absurd hu hn, fun _ => ⟨rfl, rfl, ?_⟩⟩
    obtain ⟨h2, hcnt, hlook⟩ := create_ticket_fields st
      ("🚨 СРОЧНО: " ++ String.mk (text.toList.take 100)) user_id
      (analyze_problem text).category Severity.critical now
    rw [h2]
    have hesc := escalate_some_valid
      (create_ticket st ("🚨 СРОЧНО: " ++ String.mk (text.toList.take 100)) user_id
        (analyze_problem text).category Severity.critical now).1
      (st.counter + 1) "Автоматическая эскалация срочного обращения" "second_line" now
      _ hlook (Or.inl rfl)
    rw [hesc]
    refine ⟨_, lookup_dictSet_self _ _ _, ?_, ?_, ?_, ?_⟩ <;>
      simp [escalateTicketRecord]
  · have hu' := hu
    unfold urgentSeverityOk at hu'
    rw [if_pos hu']
    exact ⟨fun _ => ⟨rfl, rfl, rfl⟩, fun hyes => absurd hyes hu⟩

/-- Witness for C6: "медленно работает система" carries only
low-priority keywords and is rejected without a ticket, while
"авария" is critical and yields the escalated ticket. -/
theorem urgent_intake_filter_witness :
    ({ idleSession with state := BotState.waiting_for_urgent } : Session).state
        = BotState.waiting_for_urgent
    ∧ (¬ urgentSeverityOk "медленно работает система"
       ∧ (step (Event.freeText "медленно работает система") 1
            { idleSession with state := BotState.waiting_for_urgent } initialStore 0).store
           = initialStore
       ∧ (step (Event.freeText "медленно работает система") 1
            { idleSession with state := BotState.waiting_for_urgent } initialStore 0).session
           = idleSession
       ∧ (step (Event.freeText "медленно работает система") 1
            { idleSession with state := BotState.waiting_for_urgent } initialStore 0).reply
           = Reply.urgentRejected)
    ∧ (urgentSeverityOk "авария"
       ∧ (step (Event.freeText "авария") 1
            { idleSession with state := BotState.waiting_for_urgent } initialStore 0).session
           = idleSession
       ∧ (step (Event.freeText "авария") 1
            { idleSession with state := BotState.waiting_for_urgent } initialStore 0).reply
           = Reply.urgentTicketCreated (initialStore.counter + 1)
       ∧ ∃ t, lookupTicket (step (Event.freeText "авария") 1
              { idleSession with state := BotState.waiting_for_urgent } initialStore 0).store
              (initialStore.counter + 1) = some t
            ∧ t.critical_level = Severity.critical
            ∧ t.status = Status.escalated_to_second_line
            ∧ t.assigned_to = "second_line_support"
            ∧ t.priority = "Высокий") :=
  ⟨rfl,
   ⟨by decide,
    (urgent_intake_filter "медленно работает система" 1
      { idleSession with state := BotState.waiting_for_urgent } initialStore 0 rfl).1
      (by decide)⟩,
   ⟨by decide,
    (urgent_intake_filter "авария" 1
      { idleSession with state := BotState.waiting_for_urgent } initialStore 0 rfl).2
      (by decide)⟩⟩


/-- Witness for C1: the boundary input "как настроить уведомления"
hits no classifier keyword, so the classifier confidence is exactly
0.65 and the engine opens a ticket instead of presenting the generic
fallback (which is nevertheless marked found). -/
theorem awaiting_problem_auto_answer_witness :
    ({ idleSession with state := BotState.waiting_for_problem } : Session).state
        = BotState.waiting_for_problem
    ∧ ¬ autoAnswerCond "как настроить уведомления"
    ∧ (analyze_problem "как настроить уведомления").confidence = 65
    ∧ (search_knowledge_base "как настроить уведомления").found = true
    ∧ ((step (Event.freeText "как настроить уведомления") 1
          { idleSession with state := BotState.waiting_for_problem } initialStore 0).reply
        = Reply.ticketCreated (initialStore.counter + 1)
       ∧ (step (Event.freeText "как настроить уведомления") 1
            { idleSession with state := BotState.waiting_for_problem } initialStore 0).session.state
          = BotState.waiting_feedback
       ∧ ∃ t, lookupTicket (step (Event.freeText "как настроить уведомления") 1
              { idleSession with state := BotState.waiting_for_problem } initialStore 0).store
              (initialStore.counter + 1) = some t
            ∧ t.problem = "как настроить уведомления"
            ∧ t.status = Status.created) :=
  ⟨rfl, by decide, by decide, by decide,
   (awaiting_problem_auto_answer "как настроить уведомления" 1
      { idleSession with state := BotState.waiting_for_problem } initialStore 0 rfl).2
     (by decide)⟩

/-- Counterexample for C2: for "Не могу войти в систему, забыл пароль"
the claim asserts severity high (not critical), but the text contains
the critical keyword "не могу войти", so the classifier yields
critical, not high. -/
theorem login_scenario_severity_not_high :
    (analyze_problem "Не могу войти в систему, забыл пароль").critical_level
        = Severity.critical
    ∧ ¬((analyze_problem "Не могу войти в систему, забыл пароль").critical_level
        = Severity.high) := by
  constructor <;> decide

/-- C2 as amended: for "Не могу войти в систему, забыл пароль" the
classifier returns the access category with severity critical (not
high), and the engine still bypasses the auto-answer path and creates
a ticket assigned to the second support tier with the high priority
label. -/
theorem login_scenario_critical_second_line :
    (analyze_problem "Не могу войти в систему, забыл пароль").category
        = "Проблемы с доступом"
    ∧ (analyze_problem "Не могу войти в систему, забыл пароль").critical_level
        = Severity.critical
    ∧ (step (Event.freeText "Не могу войти в систему, забыл пароль") 1
         { idleSession with state := BotState.waiting_for_problem } initialStore 0).reply
        = Reply.ticketCreated 1001
    ∧ ((lookupTicket (step (Event.freeText "Не могу войти в систему, забыл пароль") 1
         { idleSession with state := BotState.waiting_for_problem } initialStore 0).store
         1001).map (fun t => t.assigned_to)) = some "second_line_support"
    ∧ ((lookupTicket (step (Event.freeText "Не могу войти в систему, забыл пароль") 1
         { idleSession with state := BotState.waiting_for_problem } initialStore 0).store
         1001).map (fun t => t.priority)) = some "Высокий" := by
  refine ⟨by decide, by decide, by decide, by decide, by decide⟩

/-- Counterexample for C3: the cap is not enforced on every
ticket-creating path.  User 1 already has 3 active tickets, which is
at the normal cap and over the urgent cap, yet confirming the
operator connection still creates a fourth ticket (the handler has no
admission-control check; the idle free-text intake and the
feedback-driven creation paths are likewise unchecked). -/
theorem cap_violated_by_operator_path :
    activeTicketCount threeTicketStore 1 = 3
    ∧ (get_user_tickets threeTicketStore 1).length = 3
    ∧ (get_user_tickets (step Event.confirmOperator 1 idleSession threeTicketStore 0).store 1).length = 4
    ∧ (step Event.confirmOperator 1 idleSession threeTicketStore 0).reply
        = Reply.operatorConnected 1004 := by
  refine ⟨by decide, by decide, by decide, by decide⟩

/-- C3 as amended: the admission control is enforced at the two intake
entry points before any ticket is created — a normal intake start is
refused with no state change and no ticket when the user has 3 or more
active (non-resolved/closed) tickets, and an urgent intake start is
refused at 2 or more — but not on the remaining ticket-creating paths,
so a user at the cap can still receive tickets through those (see the
counterexample). -/
theorem intake_caps_enforced (user_id : Nat) (sess : Session) (st : Store) (now : Nat) :
    (3 ≤ activeTicketCount st user_id →
        step Event.startProblem user_id sess st now
          = { session := sess, store := st, reply := Reply.capRefused })
    ∧ (2 ≤ activeTicketCount st user_id →
        step Event.startUrgent user_id sess st now
          = { session := sess, store := st, reply := Reply.capRefused }) := by
  constructor <;> intro h
  · unfold step start_problem_dialog
    rw [if_pos h]
  · unfold step start_urgent_problem_dialog
    rw [if_pos h]

/-- Witness for C3 (amended): at the concrete three-ticket store both
refusals fire. -/
theorem intake_caps_enforced_witness :
    3 ≤ activeTicketCount threeTicketStore 1
    ∧ step Event.startProblem 1 idleSession threeTicketStore 0
        = { session := idleSession, store := threeTicketStore, reply := Reply.capRefused }
    ∧ 2 ≤ activeTicketCount threeTicketStore 1
    ∧ step Event.startUrgent 1 idleSession threeTicketStore 0
        = { session := idleSession, store := threeTicketStore, reply := Reply.capRefused } :=
  ⟨by decide, (intake_caps_enforced 1 idleSession threeTicketStore 0).1 (by decide),
   by decide, (intake_caps_enforced 1 idleSession threeTicketStore 0).2 (by decide)⟩


end TgBot
